import Mathlib

/-!
Shallow embedding of the navigation-and-remote-state-synchronization engine
of the clashui terminal dashboard (src/main.rs).

HTTP calls are modelled by passing the call's outcome as an explicit
parameter (`Option` of the decoded response; `none` is any transport,
status, or decode failure).  The `HashMap<String, Proxy>` snapshot is
modelled as a `List Proxy` of the map's values in an arbitrary order; the
code only ever consumes it through `providers()`, which filters and sorts
by name.  Operations that can panic in Rust (out-of-bounds `Vec` indexing)
return `Option` here, `none` standing for the panic.
-/

/-- `Config` — decoded body of `GET /configs` (`struct Config { mode: String }`). -/
structure Config where
  mode : String
deriving DecidableEq, Repr

/-- `GeneralState` — the mode-selection submodel
(`struct GeneralState { modes, index, config }`). -/
structure GeneralState where
  modes : List String
  index : Nat
  config : Option Config
deriving DecidableEq, Repr

namespace GeneralState

/-- `GeneralState::new` — fixed mode list, cursor 0, no cached config. -/
def new : GeneralState :=
  { modes := ["global", "rule", "direct"], index := 0, config := none }

/-- `GeneralState::fetch_data` — `self.config = http.configs().ok()`;
`resp` is the outcome of the HTTP call. -/
def fetch_data (s : GeneralState) (resp : Option Config) : GeneralState :=
  { s with config := resp }

/-- `GeneralState::next_mode` — `self.index = (self.index + 1) % 3`. -/
def next_mode (s : GeneralState) : GeneralState :=
  { s with index := (s.index + 1) % 3 }

/-- `GeneralState::previous_mode` — `self.index = (self.index + 3 - 1) % 3`. -/
def previous_mode (s : GeneralState) : GeneralState :=
  { s with index := (s.index + 3 - 1) % 3 }

/-- `GeneralState::select_mode` — issues `update_config(&self.modes[self.index])`
(unchecked indexing: `none` is the panic when the index is out of range),
ignores the outcome, then runs `fetch_data`.  Returns the new state together
with the mode string that was sent. -/
def select_mode (s : GeneralState) (resp : Option Config) :
    Option (GeneralState × String) :=
  match s.modes.get? s.index with
  | none => none
  | some m => some (s.fetch_data resp, m)

end GeneralState

/-- `Proxy` — one entry of the `/proxies` response
(`struct Proxy { all: Option<Vec<String>>, name: String, now: Option<String> }`). -/
structure Proxy where
  all : Option (List String)
  name : String
  now : Option String
deriving DecidableEq, Repr

/-- `Proxy::is_provider` — `self.all.is_some()`. -/
def Proxy.is_provider (p : Proxy) : Bool :=
  p.all.isSome

/-- Lexicographic order on strings as character lists.  Rust's `str::cmp`
compares UTF-8 bytes; UTF-8 encoding preserves code-point order, so
byte-lexicographic and code-point-lexicographic order coincide. -/
def strLeb : List Char → List Char → Bool
  | [], _ => true
  | _ :: _, [] => false
  | a :: as, b :: bs =>
      if a < b then true
      else if b < a then false
      else strLeb as bs

/-- The name-sorted provider sublist of a snapshot: `values().filter(|p|
p.is_provider())` followed by the stable `sort_by(|x, y| x.name.cmp(&y.name))`
(a stable sort is a unique function of the input order and the comparator,
so the stable `insertionSort` computes the same list as Rust's `sort_by`). -/
def sortedProviders (ps : List Proxy) : List Proxy :=
  (ps.filter Proxy.is_provider).insertionSort
    (fun x y => strLeb x.name.data y.name.data = true)

/-- A group's member names as sorted inside `select_proxy` and the renderer
(Rust's stable `proxies.sort()` on the `&str` list). -/
def sortedMembers (ms : List String) : List String :=
  ms.insertionSort (fun a b => strLeb a.data b.data = true)

/-- `ProxiesState` — the proxy-group submodel
(`struct ProxiesState { proxies, provider, proxy_index, proxies_len, providers_len }`). -/
structure ProxiesState where
  proxies : Option (List Proxy)
  provider : Nat
  proxy_index : Nat
  proxies_len : Nat
  providers_len : Nat
deriving DecidableEq, Repr

namespace ProxiesState

/-- `ProxiesState::default` (from `#[derive(Default)]`). -/
def default : ProxiesState :=
  { proxies := none, provider := 0, proxy_index := 0,
    proxies_len := 0, providers_len := 0 }

/-- `ProxiesState::providers` — values of the cached map that are providers,
sorted by `name` (empty when no snapshot is cached). -/
def providers (s : ProxiesState) : List Proxy :=
  match s.proxies with
  | some ps => sortedProviders ps
  | none => []

/-- `ProxiesState::fetch_data` — `resp` is the outcome of `http.proxies().ok()`.
On failure everything is zeroed and the snapshot dropped.  On success the
snapshot is replaced, `provider` reset to 0, and — only when the *previous*
`providers_len` was nonzero — `proxies_len` is recomputed from
`providers[self.provider]` (unchecked indexing: `none` is the panic when the
new provider list is empty); otherwise `proxies_len = 0`. -/
def fetch_data (s : ProxiesState) (resp : Option (List Proxy)) :
    Option ProxiesState :=
  match resp with
  | none =>
      some { proxies := none, provider := 0, proxy_index := 0,
             providers_len := 0, proxies_len := 0 }
  | some ps =>
      let s1 : ProxiesState := { s with proxies := some ps, provider := 0 }
      let provs := s1.providers
      let len := provs.length
      if s.providers_len ≠ 0 then
        match provs.get? s1.provider with
        | none => none
        | some p =>
            some { s1 with proxies_len := (p.all.map List.length).getD 0,
                           proxy_index := 0, providers_len := len }
      else
        some { s1 with proxies_len := 0, proxy_index := 0,
                       providers_len := len }

/-- `ProxiesState::next_tab` — no-op (forcing `provider = 0`) when
`providers_len == 0`; otherwise advance modulo `providers_len`, recompute
`proxies_len` from the new current provider (unchecked indexing: `none` is
the panic), and reset `proxy_index` to 0. -/
def next_tab (s : ProxiesState) : Option ProxiesState :=
  if s.providers_len = 0 then some { s with provider := 0 }
  else
    let index := s.provider + 1
    let prov := index % s.providers_len
    match s.providers.get? prov with
    | none => none
    | some p =>
        some { s with provider := prov,
                      proxies_len := (p.all.map List.length).getD 0,
                      proxy_index := 0 }

/-- `ProxiesState::previous_tab` — like `next_tab` but retreating
(`self.provider + self.providers_len - 1`) modulo `providers_len`. -/
def previous_tab (s : ProxiesState) : Option ProxiesState :=
  if s.providers_len = 0 then some { s with provider := 0 }
  else
    let index := s.provider + s.providers_len - 1
    let prov := index % s.providers_len
    match s.providers.get? prov with
    | none => none
    | some p =>
        some { s with provider := prov,
                      proxies_len := (p.all.map List.length).getD 0,
                      proxy_index := 0 }

/-- `ProxiesState::next_proxy` — no-op (forcing `proxy_index = 0`) when
`proxies_len == 0`; otherwise advance modulo `proxies_len`. -/
def next_proxy (s : ProxiesState) : ProxiesState :=
  if s.proxies_len = 0 then { s with proxy_index := 0 }
  else { s with proxy_index := (s.proxy_index + 1) % s.proxies_len }

/-- `ProxiesState::previous_proxy` — retreat modulo `proxies_len`. -/
def previous_proxy (s : ProxiesState) : ProxiesState :=
  if s.proxies_len = 0 then { s with proxy_index := 0 }
  else
    { s with proxy_index :=
        (s.proxy_index + s.proxies_len - 1) % s.proxies_len }

/-- `ProxiesState::select_proxy` — resolve `(provider.name, member)` from the
current sorted lists at `(provider, proxy_index)` (checked lookups, aborting
silently on failure), issue `update_proxy` (outcome ignored), run
`fetch_data` with outcome `resp` (`none` result is the panic inside it), then
best-effort restore the pre-call indices when below the new counts.  Returns
the new state and the `(group, member)` pair that was sent (`none` when no
request was issued). -/
def select_proxy (s : ProxiesState) (resp : Option (List Proxy)) :
    Option (ProxiesState × Option (String × String)) :=
  if s.providers_len = 0 ∨ s.proxies_len = 0 then some (s, none)
  else
    let provs := s.providers
    let provider_index := s.provider
    match provs.get? provider_index with
    | none => some (s, none)
    | some prov =>
        let proxy_index := s.proxy_index
        match prov.all with
        | none => some (s, none)
        | some members =>
            let sorted := sortedMembers members
            match sorted.get? proxy_index with
            | none => some (s, none)
            | some name =>
                match s.fetch_data resp with
                | none => none
                | some s2 =>
                    if s2.providers_len = 0 ∨ s2.proxies_len = 0 then
                      some (s2, some (prov.name, name))
                    else
                      let s3 := if provider_index < s2.providers_len
                        then { s2 with provider := provider_index } else s2
                      let s4 := if proxy_index < s3.proxies_len
                        then { s3 with proxy_index := proxy_index } else s3
                      some (s4, some (prov.name, name))

/-- Spec-side derived quantity: the member-list length of the group found at
index `i` of the sorted provider list (0 when there is no such group). -/
def groupMemberCount (s : ProxiesState) (i : Nat) : Nat :=
  match s.providers.get? i with
  | some p => (p.all.map List.length).getD 0
  | none => 0

/-- Spec-side derived quantity: the member-list length of the group currently
at `provider` ("the group currently at `groupIndex` in the current
snapshot"). -/
def currentGroupMemberCount (s : ProxiesState) : Nat :=
  s.groupMemberCount s.provider

end ProxiesState

/-- `Route` — the five fixed sections. -/
inductive Route where
  | General
  | Proxies
  | Rules
  | Connections
  | Logs
deriving DecidableEq, Repr

/-- `App` — the top-level aggregate (`struct App { http, routes, page, focus,
general_state, proxies_state }`; the HTTP client itself holds no model
state, and `focus` is irrelevant to the claims settled here). -/
structure App where
  routes : List Route
  page : Nat
  general_state : GeneralState
  proxies_state : ProxiesState
deriving DecidableEq, Repr

namespace App

/-- `App::new` — the fixed route list, page 0, fresh submodels. -/
def new : App :=
  { routes := [.General, .Proxies, .Rules, .Connections, .Logs],
    page := 0,
    general_state := GeneralState.new,
    proxies_state := ProxiesState.default }

/-- `App::fetch_data` — dispatch to the current route's submodel fetch.
`modeResp` / `proxiesResp` are the outcomes of the HTTP calls the submodel
would make; `none` result is a panic inside `ProxiesState::fetch_data`. -/
def fetch_data (a : App) (modeResp : Option Config)
    (proxiesResp : Option (List Proxy)) : Option App :=
  match a.routes.get? a.page with
  | none => some a
  | some Route.General =>
      some { a with general_state := a.general_state.fetch_data modeResp }
  | some Route.Proxies =>
      match a.proxies_state.fetch_data proxiesResp with
      | none => none
      | some ps => some { a with proxies_state := ps }
  | some _ => some a

/-- `App::next_menu` — `self.page = (self.page + 1) % self.routes.len()`,
then `fetch_data`. -/
def next_menu (a : App) (modeResp : Option Config)
    (proxiesResp : Option (List Proxy)) : Option App :=
  ({ a with page := (a.page + 1) % a.routes.length } : App).fetch_data
    modeResp proxiesResp

/-- `App::previous_menu` — retreat modulo `routes.len()`, then `fetch_data`. -/
def previous_menu (a : App) (modeResp : Option Config)
    (proxiesResp : Option (List Proxy)) : Option App :=
  ({ a with page := (a.page + a.routes.length - 1) % a.routes.length } :
      App).fetch_data modeResp proxiesResp

end App

/-- Iterate `App.next_menu`, one response pair per step. -/
def appNextMenuIter (a : App) :
    List (Option Config × Option (List Proxy)) → Option App
  | [] => some a
  | r :: rs =>
      match a.next_menu r.1 r.2 with
      | none => none
      | some a2 => appNextMenuIter a2 rs

/-- Iterate `ProxiesState.next_tab` `n` times, stopping at a panic. -/
def nextTabIter : Nat → ProxiesState → Option ProxiesState
  | 0, s => some s
  | n + 1, s =>
      match s.next_tab with
      | none => none
      | some s2 => nextTabIter n s2

/-- One navigation key in the proxies pane. -/
inductive NavOp where
  | nextGroup
  | previousGroup
  | nextMember
  | previousMember
deriving DecidableEq, Repr

/-- Dispatch one navigation key to the corresponding `ProxiesState`
operation (`none` is a panic inside `next_tab` / `previous_tab`). -/
def navStep (op : NavOp) (s : ProxiesState) : Option ProxiesState :=
  match op with
  | .nextGroup => s.next_tab
  | .previousGroup => s.previous_tab
  | .nextMember => some s.next_proxy
  | .previousMember => some s.previous_proxy

/-- Run a sequence of navigation keys, stopping at a panic. -/
def navApply : List NavOp → ProxiesState → Option ProxiesState
  | [], s => some s
  | op :: ops, s =>
      match navStep op s with
      | none => none
      | some s2 => navApply ops s2

/-- The percent-encoding set `FRAGMENT = CONTROLS ∪ { ' ', '"', '<', '>',
backtick }`, as a predicate on a byte (`CONTROLS` is the C0 controls
0x00–0x1F and DEL 0x7F). -/
def inFragment (b : Nat) : Bool :=
  b < 0x20 || b == 0x7f || b == 0x20 || b == 0x22 || b == 0x3c ||
    b == 0x3e || b == 0x60

/-- Upper-case hexadecimal digit for `n < 16`, as the percent-encoding
crate emits it. -/
def hexUpper (n : Nat) : Char :=
  if n < 10 then Char.ofNat (48 + n) else Char.ofNat (55 + n)

/-- Encode one byte: a byte in the set becomes `%XX`, any other byte passes
through verbatim. -/
def percentEncodeByte (b : Nat) : List Char :=
  if inFragment b then ['%', hexUpper (b / 16), hexUpper (b % 16)]
  else [Char.ofNat b]

/-- `utf8_percent_encode(provider, FRAGMENT)` over the UTF-8 bytes of the
group name. -/
def utf8PercentEncode : List Nat → List Char
  | [] => []
  | b :: bs => percentEncodeByte b ++ utf8PercentEncode bs

/-- The request path built by `HttpClient::update_proxy`:
`"/proxies/" + utf8_percent_encode(provider, FRAGMENT)` (the base URL
prefix aside). -/
def updateProxyPath (provider : List Nat) : List Char :=
  "/proxies/".data ++ utf8PercentEncode provider

/-- The cached `providers_len` agrees with the snapshot: it equals the
length of the sorted provider list (the number of `isGroup` entries). -/
abbrev LenInv (s : ProxiesState) : Prop :=
  s.providers_len = s.providers.length

/-- The data-model invariant the navigation operations maintain: the cached
group count is the real one, each index is below its count when the count is
nonzero, and each index is pinned to 0 when its count is 0. -/
abbrev NavInv (s : ProxiesState) : Prop :=
  s.providers_len = s.providers.length
  ∧ (s.providers_len ≠ 0 → s.provider < s.providers_len)
  ∧ (s.providers_len = 0 → s.provider = 0)
  ∧ (s.proxies_len ≠ 0 → s.proxy_index < s.proxies_len)
  ∧ (s.proxies_len = 0 → s.proxy_index = 0)

theorem providers_proxies_congr (s t : ProxiesState)
    (h : s.proxies = t.proxies) : s.providers = t.providers := by
  unfold ProxiesState.providers
  rw [h]

theorem sortedMembers_length (ms : List String) :
    (sortedMembers ms).length = ms.length :=
  List.length_insertionSort _ _

theorem next_tab_of_len_zero (s : ProxiesState) (h : s.providers_len = 0) :
    s.next_tab = some { s with provider := 0 } := by
  simp [ProxiesState.next_tab, h]

theorem next_tab_of_len_ne_zero (s : ProxiesState)
    (hlen : s.providers_len = s.providers.length)
    (hne : s.providers_len ≠ 0) :
    s.next_tab =
      some { s with provider := (s.provider + 1) % s.providers_len,
                    proxies_len :=
                      s.groupMemberCount
                        ((s.provider + 1) % s.providers_len),
                    proxy_index := 0 } := by
  have hpos : 0 < s.providers_len := Nat.pos_of_ne_zero hne
  have hlt : (s.provider + 1) % s.providers_len < s.providers.length := by
    rw [← hlen]; exact Nat.mod_lt _ hpos
  simp [ProxiesState.next_tab, ProxiesState.groupMemberCount, hne,
        List.getElem?_eq_getElem hlt]

theorem previous_tab_of_len_zero (s : ProxiesState)
    (h : s.providers_len = 0) :
    s.previous_tab = some { s with provider := 0 } := by
  simp [ProxiesState.previous_tab, h]

theorem previous_tab_of_len_ne_zero (s : ProxiesState)
    (hlen : s.providers_len = s.providers.length)
    (hne : s.providers_len ≠ 0) :
    s.previous_tab =
      some { s with provider :=
                      (s.provider + s.providers_len - 1) % s.providers_len,
                    proxies_len :=
                      s.groupMemberCount
                        ((s.provider + s.providers_len - 1) %
                          s.providers_len),
                    proxy_index := 0 } := by
  have hpos : 0 < s.providers_len := Nat.pos_of_ne_zero hne
  have hlt : (s.provider + s.providers_len - 1) % s.providers_len <
      s.providers.length := by
    rw [← hlen]; exact Nat.mod_lt _ hpos
  simp [ProxiesState.previous_tab, ProxiesState.groupMemberCount, hne,
        List.getElem?_eq_getElem hlt]

theorem fetch_data_none (s : ProxiesState) :
    s.fetch_data none = some ProxiesState.default := rfl

theorem fetch_data_some_of_zero (s : ProxiesState) (ps : List Proxy)
    (h : s.providers_len = 0) :
    s.fetch_data (some ps) =
      some { proxies := some ps, provider := 0, proxy_index := 0,
             proxies_len := 0,
             providers_len := (sortedProviders ps).length } := by
  simp [ProxiesState.fetch_data, h, ProxiesState.providers]

theorem fetch_data_some_of_ne_zero (s : ProxiesState) (ps : List Proxy)
    (h : s.providers_len ≠ 0) (g : Proxy)
    (hg : (sortedProviders ps)[0]? = some g) :
    s.fetch_data (some ps) =
      some { proxies := some ps, provider := 0, proxy_index := 0,
             proxies_len := (g.all.map List.length).getD 0,
             providers_len := (sortedProviders ps).length } := by
  simp [ProxiesState.fetch_data, h, ProxiesState.providers, hg]

theorem fetch_data_some_of_empty (s : ProxiesState) (ps : List Proxy)
    (h : s.providers_len ≠ 0) (hnil : sortedProviders ps = []) :
    s.fetch_data (some ps) = none := by
  simp [ProxiesState.fetch_data, h, ProxiesState.providers, hnil]

theorem next_proxy_of_zero (s : ProxiesState) (h : s.proxies_len = 0) :
    s.next_proxy = { s with proxy_index := 0 } := by
  simp [ProxiesState.next_proxy, h]

theorem next_proxy_of_ne_zero (s : ProxiesState) (h : s.proxies_len ≠ 0) :
    s.next_proxy =
      { s with proxy_index := (s.proxy_index + 1) % s.proxies_len } := by
  simp [ProxiesState.next_proxy, h]

theorem previous_proxy_of_zero (s : ProxiesState) (h : s.proxies_len = 0) :
    s.previous_proxy = { s with proxy_index := 0 } := by
  simp [ProxiesState.previous_proxy, h]

theorem previous_proxy_of_ne_zero (s : ProxiesState)
    (h : s.proxies_len ≠ 0) :
    s.previous_proxy =
      { s with proxy_index :=
          (s.proxy_index + s.proxies_len - 1) % s.proxies_len } := by
  simp [ProxiesState.previous_proxy, h]

theorem next_proxy_iterate (k : Nat) (s : ProxiesState)
    (h : s.proxies_len ≠ 0) (hi : s.proxy_index < s.proxies_len) :
    ProxiesState.next_proxy^[k] s =
      { s with proxy_index := (s.proxy_index + k) % s.proxies_len } := by
  induction k with
  | zero =>
      simp [Nat.mod_eq_of_lt hi]
  | succ k ih =>
      rw [Function.iterate_succ_apply', ih,
          next_proxy_of_ne_zero _ (by simpa using h)]
      simp only [ProxiesState.mk.injEq, and_true, true_and]
      rw [Nat.mod_add_mod]
      congr 1

theorem nextTabIter_spec (k : Nat) (s : ProxiesState)
    (hlen : s.providers_len = s.providers.length)
    (hne : s.providers_len ≠ 0) (hidx : s.provider < s.providers_len) :
    ∃ t, nextTabIter k s = some t
      ∧ t.provider = (s.provider + k) % s.providers_len
      ∧ t.providers_len = s.providers_len
      ∧ t.proxies = s.proxies := by
  induction k generalizing s with
  | zero =>
      exact ⟨s, rfl, by rw [Nat.add_zero, Nat.mod_eq_of_lt hidx], rfl, rfl⟩
  | succ k ih =>
      have hpos : 0 < s.providers_len := Nat.pos_of_ne_zero hne
      obtain ⟨t, ht, hp, hl, hx⟩ :=
        ih { s with provider := (s.provider + 1) % s.providers_len,
                    proxies_len :=
                      s.groupMemberCount ((s.provider + 1) % s.providers_len),
                    proxy_index := 0 }
          hlen hne (Nat.mod_lt _ hpos)
      refine ⟨t, ?_, ?_, hl, hx⟩
      · rw [nextTabIter, next_tab_of_len_ne_zero s hlen hne]
        exact ht
      · rw [hp]
        simp only [Nat.mod_add_mod]
        congr 1
        omega

theorem fetch_data_page_routes (a : App) (r1 : Option Config)
    (r2 : Option (List Proxy)) (a2 : App)
    (h : a.fetch_data r1 r2 = some a2) :
    a2.page = a.page ∧ a2.routes = a.routes := by
  unfold App.fetch_data at h
  split at h
  · injection h with h; subst h; exact ⟨rfl, rfl⟩
  · injection h with h; subst h; exact ⟨rfl, rfl⟩
  · split at h
    · cases h
    · injection h with h; subst h; exact ⟨rfl, rfl⟩
  · injection h with h; subst h; exact ⟨rfl, rfl⟩

theorem next_menu_page_routes (a : App) (r1 : Option Config)
    (r2 : Option (List Proxy)) (a2 : App)
    (h : a.next_menu r1 r2 = some a2) :
    a2.page = (a.page + 1) % a.routes.length ∧ a2.routes = a.routes := by
  unfold App.next_menu at h
  exact fetch_data_page_routes _ r1 r2 a2 h

theorem appNextMenuIter_page
    (rs : List (Option Config × Option (List Proxy))) (a a2 : App)
    (hlen : a.routes.length ≠ 0) (hp : a.page < a.routes.length)
    (h : appNextMenuIter a rs = some a2) :
    a2.page = (a.page + rs.length) % a.routes.length
      ∧ a2.routes = a.routes := by
  induction rs generalizing a with
  | nil =>
      rw [appNextMenuIter] at h
      injection h with h
      subst h
      exact ⟨by simp [Nat.mod_eq_of_lt hp], rfl⟩
  | cons r rs ih =>
      rw [appNextMenuIter] at h
      cases hm : a.next_menu r.1 r.2 with
      | none => rw [hm] at h; cases h
      | some a1 =>
          rw [hm] at h
          obtain ⟨h1, h2⟩ := next_menu_page_routes a r.1 r.2 a1 hm
          have hlen1 : a1.routes.length ≠ 0 := by rw [h2]; exact hlen
          have hp1 : a1.page < a1.routes.length := by
            rw [h1, h2]
            exact Nat.mod_lt _ (Nat.pos_of_ne_zero hlen)
          obtain ⟨h3, h4⟩ := ih a1 hlen1 hp1 h
          constructor
          · rw [h3, h2, h1, Nat.mod_add_mod, List.length_cons]
            congr 1
            omega
          · rw [h4, h2]

theorem navStep_inv (op : NavOp) (s : ProxiesState) (h : NavInv s) :
    ∃ t, navStep op s = some t ∧ NavInv t := by
  obtain ⟨h1, h2, h3, h4, h5⟩ := h
  cases op with
  | nextGroup =>
      by_cases hz : s.providers_len = 0
      · exact ⟨_, next_tab_of_len_zero s hz,
               h1, fun hc => absurd hz hc, fun _ => rfl, h4, h5⟩
      · exact ⟨_, next_tab_of_len_ne_zero s h1 hz,
               h1, fun _ => Nat.mod_lt _ (Nat.pos_of_ne_zero hz),
               fun hc => absurd hc hz, fun hm => Nat.pos_of_ne_zero hm,
               fun _ => rfl⟩
  | previousGroup =>
      by_cases hz : s.providers_len = 0
      · exact ⟨_, previous_tab_of_len_zero s hz,
               h1, fun hc => absurd hz hc, fun _ => rfl, h4, h5⟩
      · exact ⟨_, previous_tab_of_len_ne_zero s h1 hz,
               h1, fun _ => Nat.mod_lt _ (Nat.pos_of_ne_zero hz),
               fun hc => absurd hc hz, fun hm => Nat.pos_of_ne_zero hm,
               fun _ => rfl⟩
  | nextMember =>
      by_cases hz : s.proxies_len = 0
      · exact ⟨_, congrArg some (next_proxy_of_zero s hz),
               h1, h2, h3, fun hc => absurd hz hc, fun _ => rfl⟩
      · exact ⟨_, congrArg some (next_proxy_of_ne_zero s hz),
               h1, h2, h3,
               fun _ => Nat.mod_lt _ (Nat.pos_of_ne_zero hz),
               fun hc => absurd hc hz⟩
  | previousMember =>
      by_cases hz : s.proxies_len = 0
      · exact ⟨_, congrArg some (previous_proxy_of_zero s hz),
               h1, h2, h3, fun hc => absurd hz hc, fun _ => rfl⟩
      · exact ⟨_, congrArg some (previous_proxy_of_ne_zero s hz),
               h1, h2, h3,
               fun _ => Nat.mod_lt _ (Nat.pos_of_ne_zero hz),
               fun hc => absurd hc hz⟩

theorem navApply_inv (ops : List NavOp) (s : ProxiesState) (h : NavInv s) :
    ∃ t, navApply ops s = some t ∧ NavInv t := by
  induction ops generalizing s with
  | nil => exact ⟨s, rfl, h⟩
  | cons op ops ih =>
      obtain ⟨t, ht, hinv⟩ := navStep_inv op s h
      obtain ⟨u, hu, huinv⟩ := ih t hinv
      refine ⟨u, ?_, huinv⟩
      rw [navApply, ht]
      exact hu

theorem fetch_data_lenInv (s : ProxiesState) (r : Option (List Proxy))
    (t : ProxiesState) (h : s.fetch_data r = some t) : LenInv t := by
  cases r with
  | none => injection h with h; subst h; rfl
  | some ps =>
      unfold ProxiesState.fetch_data at h
      dsimp only at h
      by_cases hz : s.providers_len ≠ 0
      · rw [if_pos hz] at h
        cases hg : (({ s with proxies := some ps, provider := 0 } :
            ProxiesState).providers).get? 0 with
        | none => simp only [hg] at h; cases h
        | some p =>
            simp only [hg] at h
            injection h with h
            subst h
            rfl
      · rw [if_neg hz] at h
        injection h with h
        subst h
        rfl

theorem select_proxy_lenInv (s : ProxiesState) (r : Option (List Proxy))
    (out : ProxiesState × Option (String × String))
    (h : s.select_proxy r = some out) (hs : LenInv s) : LenInv out.1 := by
  unfold ProxiesState.select_proxy at h
  by_cases hguard : s.providers_len = 0 ∨ s.proxies_len = 0
  · rw [if_pos hguard] at h
    injection h with h
    subst h
    exact hs
  · rw [if_neg hguard] at h
    dsimp only at h
    cases hget : s.providers.get? s.provider with
    | none =>
        simp only [hget] at h
        injection h with h
        subst h
        exact hs
    | some prov =>
        simp only [hget] at h
        cases hall : prov.all with
        | none =>
            simp only [hall] at h
            injection h with h
            subst h
            exact hs
        | some members =>
            simp only [hall] at h
            cases hgm : (sortedMembers members).get? s.proxy_index with
            | none =>
                simp only [hgm] at h
                injection h with h
                subst h
                exact hs
            | some name =>
                simp only [hgm] at h
                cases hfd : s.fetch_data r with
                | none => simp only [hfd] at h; cases h
                | some s2 =>
                    simp only [hfd] at h
                    have h2 : LenInv s2 := fetch_data_lenInv s r s2 hfd
                    by_cases hg2 : s2.providers_len = 0 ∨ s2.proxies_len = 0
                    · rw [if_pos hg2] at h
                      injection h with h
                      subst h
                      exact h2
                    · rw [if_neg hg2] at h
                      injection h with h
                      subst h
                      dsimp only
                      split <;> split <;> exact h2


theorem hexUpper_not_fragment : ∀ n < 16,
    inFragment (hexUpper n).toNat = false := by
  decide

set_option maxRecDepth 8192 in
theorem charOfNat_toNat : ∀ b < 256, (Char.ofNat b).toNat = b := by
  decide

theorem utf8PercentEncode_no_fragment (bytes : List Nat) (c : Char)
    (hb : ∀ b ∈ bytes, b < 256) (hc : c ∈ utf8PercentEncode bytes) :
    inFragment c.toNat = false := by
  induction bytes with
  | nil => cases hc
  | cons b bs ih =>
      rw [utf8PercentEncode] at hc
      rcases List.mem_append.mp hc with hc1 | hc2
      · have hb0 : b < 256 := hb b (List.mem_cons_self b bs)
        by_cases hf : inFragment b = true
        · rw [percentEncodeByte, if_pos hf] at hc1
          simp only [List.mem_cons, List.not_mem_nil, or_false] at hc1
          rcases hc1 with rfl | rfl | rfl
          · decide
          · exact hexUpper_not_fragment _ (Nat.div_lt_of_lt_mul hb0)
          · exact hexUpper_not_fragment _ (Nat.mod_lt _ (by omega))
        · rw [percentEncodeByte, if_neg hf] at hc1
          simp only [List.mem_cons, List.not_mem_nil, or_false] at hc1
          subst hc1
          rw [charOfNat_toNat b hb0]
          rw [Bool.not_eq_true] at hf
          exact hf
      · exact ih (fun x hx => hb x (List.mem_cons_of_mem b hx)) hc2

/-- C7: whatever the prior proxy-group state, a failed `getProxies()` leaves
`fetch_data` with zero counts, zero indices, and the cached snapshot
dropped — no stale snapshot is retained. -/
theorem fetch_failure_clears_state (s : ProxiesState) :
    s.fetch_data none =
      some { proxies := none, provider := 0, proxy_index := 0,
             proxies_len := 0, providers_len := 0 } :=
  rfl

/-- Witness for C7 at the concrete two-group state. -/
theorem fetch_failure_clears_state_witness :
    ({ proxies := some [⟨some ["y", "x"], "B", none⟩,
                        ⟨some ["m"], "A", none⟩],
       provider := 1, proxy_index := 1, proxies_len := 2,
       providers_len := 2 } : ProxiesState).fetch_data none =
      some { proxies := none, provider := 0, proxy_index := 0,
             proxies_len := 0, providers_len := 0 } :=
  fetch_failure_clears_state _

/-- C2: the code panics instead of setting `memberCount = 0`.  Starting
from the fresh state, a successful fetch of the one-group snapshot
`{ "A": { all: ["m"] } }` makes `providers_len = 1`; a second successful
fetch whose collection has zero groups then indexes `providers[0]` on an
empty list — the embedded `fetch_data` returns `none` (the Rust panic),
contradicting the documented `memberCount = 0` outcome. -/
theorem fetch_panics_on_vanishing_groups :
    (ProxiesState.default.fetch_data (some [⟨some ["m"], "A", none⟩])).bind
      (fun s => s.fetch_data (some [])) = none := by
  decide

/-- Counterexample to C1 as stated: on the very first successful fetch
(previous `providers_len = 0`), `proxies_len` is left at 0 even though the
group now at `provider = 0` has one member — `memberCount` does not equal
the member-list length of the current group. -/
theorem memberCount_stale_after_first_fetch :
    ProxiesState.default.fetch_data (some [⟨some ["m"], "A", none⟩]) =
      some { proxies := some [⟨some ["m"], "A", none⟩], provider := 0,
             proxy_index := 0, proxies_len := 0, providers_len := 1 }
    ∧ ProxiesState.currentGroupMemberCount
        { proxies := some [⟨some ["m"], "A", none⟩], provider := 0,
          proxy_index := 0, proxies_len := 0, providers_len := 1 } = 1 :=
  ⟨by decide, by decide⟩

/-- C1 (amended): `memberCount` equals the member-list length of the group
currently at `groupIndex` after every `nextGroup()`/`previousGroup()`
(given the cached nonzero `groupCount` is the snapshot's), and after a
completed fetch whose *pre-fetch* `groupCount` was nonzero; a fetch from a
zero-`groupCount` state instead leaves `memberCount = 0` regardless of the
first group's size, and `confirm()`'s index restore can leave `memberCount`
describing group 0 while `groupIndex` points elsewhere. -/
theorem memberCount_tracks_current_group :
    (∀ s : ProxiesState, s.providers_len = s.providers.length →
        s.providers_len ≠ 0 →
        ∃ t, s.next_tab = some t
          ∧ t.proxies_len = t.currentGroupMemberCount)
    ∧ (∀ s : ProxiesState, s.providers_len = s.providers.length →
        s.providers_len ≠ 0 →
        ∃ t, s.previous_tab = some t
          ∧ t.proxies_len = t.currentGroupMemberCount)
    ∧ (∀ (s t : ProxiesState) (ps : List Proxy), s.providers_len ≠ 0 →
        s.fetch_data (some ps) = some t →
        t.proxies_len = t.currentGroupMemberCount) := by
  refine ⟨?_, ?_, ?_⟩
  · intro s hlen hne
    exact ⟨_, next_tab_of_len_ne_zero s hlen hne, rfl⟩
  · intro s hlen hne
    exact ⟨_, previous_tab_of_len_ne_zero s hlen hne, rfl⟩
  · intro s t ps hne h
    unfold ProxiesState.fetch_data at h
    dsimp only at h
    rw [if_pos hne] at h
    cases hg : (({ s with proxies := some ps, provider := 0 } :
        ProxiesState).providers).get? 0 with
    | none => simp only [hg] at h; cases h
    | some p =>
        simp only [hg] at h
        injection h with h
        subst h
        simp only [ProxiesState.currentGroupMemberCount,
                   ProxiesState.groupMemberCount, ProxiesState.providers]
          at hg ⊢
        rw [List.get?_eq_getElem?] at hg
        simp [hg]

/-- Witness for C1 (amended) at a concrete two-group state. -/
theorem memberCount_tracks_current_group_witness :
    ∃ t, ({ proxies := some [⟨some ["y", "x"], "B", none⟩,
                             ⟨some ["m"], "A", none⟩],
            provider := 0, proxy_index := 0, proxies_len := 1,
            providers_len := 2 } : ProxiesState).next_tab = some t
      ∧ t.proxies_len = t.currentGroupMemberCount :=
  memberCount_tracks_current_group.1 _ (by decide) (by decide)

/-- Counterexample to C4 as stated: running the scenario's `fetch()` from
the fresh state (previous `groupCount = 0`) yields `memberCount = 0`, not
the claimed `memberCount = 1` for group `"A"`. -/
theorem fetch_scenario_fresh_state :
    ProxiesState.default.fetch_data
        (some [⟨some ["y", "x"], "B", none⟩, ⟨some ["m"], "A", none⟩]) =
      some { proxies := some [⟨some ["y", "x"], "B", none⟩,
                              ⟨some ["m"], "A", none⟩],
             provider := 0, proxy_index := 0, proxies_len := 0,
             providers_len := 2 }
    ∧ ProxiesState.currentGroupMemberCount
        { proxies := some [⟨some ["y", "x"], "B", none⟩,
                           ⟨some ["m"], "A", none⟩],
          provider := 0, proxy_index := 0, proxies_len := 0,
          providers_len := 2 } = 1 :=
  ⟨by decide, by decide⟩

/-- C4 (amended): for the collection `{"B": {all: ["y","x"]},
"A": {all: ["m"]}}`, a successful `fetch()` from any state whose
*pre-fetch* `groupCount` was nonzero gives the name-sorted group list
`["A", "B"]`, `groupIndex = 0` and `memberCount = 1` (group `"A"`), and a
subsequent `nextGroup()` moves to `"B"` with members sorted `["x", "y"]`
and `memberCount = 2`; from a fresh state the fetch instead leaves
`memberCount = 0`. -/
theorem fetch_scenario_sorted (s : ProxiesState)
    (h : s.providers_len ≠ 0) :
    ∃ t u,
      s.fetch_data (some [⟨some ["y", "x"], "B", none⟩,
                          ⟨some ["m"], "A", none⟩]) = some t
      ∧ t.providers.map Proxy.name = ["A", "B"]
      ∧ t.provider = 0
      ∧ t.proxies_len = 1
      ∧ t.next_tab = some u
      ∧ u.provider = 1
      ∧ (u.providers.get? 1).map Proxy.name = some "B"
      ∧ ((u.providers.get? 1).bind Proxy.all).map sortedMembers =
          some ["x", "y"]
      ∧ u.proxies_len = 2 := by
  refine ⟨{ proxies := some [⟨some ["y", "x"], "B", none⟩,
                             ⟨some ["m"], "A", none⟩],
            provider := 0, proxy_index := 0, proxies_len := 1,
            providers_len := 2 },
          { proxies := some [⟨some ["y", "x"], "B", none⟩,
                             ⟨some ["m"], "A", none⟩],
            provider := 1, proxy_index := 0, proxies_len := 2,
            providers_len := 2 },
          ?_, by decide, rfl, rfl, by decide, rfl, by decide, by decide,
          rfl⟩
  rw [fetch_data_some_of_ne_zero s _ h ⟨some ["m"], "A", none⟩ (by decide)]
  decide

/-- Witness for C4 (amended) at a concrete nonzero-`groupCount` state. -/
theorem fetch_scenario_sorted_witness :
    ∃ t u,
      ({ proxies := some [⟨some ["m"], "A", none⟩], provider := 0,
         proxy_index := 0, proxies_len := 0, providers_len := 1 } :
          ProxiesState).fetch_data
          (some [⟨some ["y", "x"], "B", none⟩,
                 ⟨some ["m"], "A", none⟩]) = some t
      ∧ t.providers.map Proxy.name = ["A", "B"]
      ∧ t.provider = 0
      ∧ t.proxies_len = 1
      ∧ t.next_tab = some u
      ∧ u.provider = 1
      ∧ (u.providers.get? 1).map Proxy.name = some "B"
      ∧ ((u.providers.get? 1).bind Proxy.all).map sortedMembers =
          some ["x", "y"]
      ∧ u.proxies_len = 2 :=
  fetch_scenario_sorted _ (by decide)

/-- C5: any sequence of `nextGroup`/`previousGroup`/`nextMember`/
`previousMember` applied to a state satisfying the data-model invariant
completes (no panic) and leaves every index below its count whenever the
count is nonzero, and pinned to 0 whenever the count is 0. -/
theorem nav_sequence_keeps_bounds (ops : List NavOp) (s : ProxiesState)
    (h : NavInv s) :
    ∃ t, navApply ops s = some t
      ∧ (t.providers_len ≠ 0 → t.provider < t.providers_len)
      ∧ (t.providers_len = 0 → t.provider = 0)
      ∧ (t.proxies_len ≠ 0 → t.proxy_index < t.proxies_len)
      ∧ (t.proxies_len = 0 → t.proxy_index = 0) := by
  obtain ⟨t, ht, h1, h2, h3, h4, h5⟩ := navApply_inv ops s h
  exact ⟨t, ht, h2, h3, h4, h5⟩

/-- Witness for C5: a concrete four-key sequence on a two-group state. -/
theorem nav_sequence_keeps_bounds_witness :
    ∃ t, navApply [NavOp.nextGroup, NavOp.nextMember, NavOp.previousGroup,
                   NavOp.previousMember]
        { proxies := some [⟨some ["y", "x"], "B", none⟩,
                           ⟨some ["m"], "A", none⟩],
          provider := 0, proxy_index := 0, proxies_len := 1,
          providers_len := 2 } = some t
      ∧ (t.providers_len ≠ 0 → t.provider < t.providers_len)
      ∧ (t.providers_len = 0 → t.provider = 0)
      ∧ (t.proxies_len ≠ 0 → t.proxy_index < t.proxies_len)
      ∧ (t.proxies_len = 0 → t.proxy_index = 0) :=
  nav_sequence_keeps_bounds _ _ (by decide)

/-- C6: cycling is periodic — `nextGroup()` applied `groupCount` times
(nonzero, cache correct, index in bounds) restores `groupIndex`;
`nextMember()` applied `memberCount` times restores `memberIndex`; section
navigation has period 5 and mode navigation has period 3. -/
theorem wraparound_periods :
    (∀ s : ProxiesState, s.providers_len = s.providers.length →
        s.providers_len ≠ 0 → s.provider < s.providers_len →
        ∃ t, nextTabIter s.providers_len s = some t
          ∧ t.provider = s.provider)
    ∧ (∀ s : ProxiesState, s.proxies_len ≠ 0 →
        s.proxy_index < s.proxies_len →
        (ProxiesState.next_proxy^[s.proxies_len] s).proxy_index =
          s.proxy_index)
    ∧ (∀ (a a2 : App) (rs : List (Option Config × Option (List Proxy))),
        a.routes.length = 5 → a.page < 5 → rs.length = 5 →
        appNextMenuIter a rs = some a2 → a2.page = a.page)
    ∧ (∀ s : GeneralState, s.index < 3 →
        (s.next_mode.next_mode.next_mode).index = s.index) := by
  refine ⟨?_, ?_, ?_, ?_⟩
  · intro s hlen hne hidx
    obtain ⟨t, ht, hp, _, _⟩ :=
      nextTabIter_spec s.providers_len s hlen hne hidx
    refine ⟨t, ht, ?_⟩
    rw [hp, Nat.add_mod_right]
    exact Nat.mod_eq_of_lt hidx
  · intro s hz hi
    rw [next_proxy_iterate s.proxies_len s hz hi]
    show (s.proxy_index + s.proxies_len) % s.proxies_len = s.proxy_index
    rw [Nat.add_mod_right]
    exact Nat.mod_eq_of_lt hi
  · intro a a2 rs hr hp hrs h
    obtain ⟨h1, _⟩ := appNextMenuIter_page rs a a2
      (by rw [hr]; omega) (by rw [hr]; exact hp) h
    rw [h1, hr, hrs, Nat.add_mod_right]
    exact Nat.mod_eq_of_lt hp
  · intro s h
    simp only [GeneralState.next_mode]
    omega

/-- Witness for C6 at concrete states: a two-group proxies state, the
fresh `App`, and the fresh mode submodel. -/
theorem wraparound_periods_witness :
    (∃ t, nextTabIter 2
        { proxies := some [⟨some ["y", "x"], "B", none⟩,
                           ⟨some ["m"], "A", none⟩],
          provider := 1, proxy_index := 0, proxies_len := 2,
          providers_len := 2 } = some t ∧ t.provider = 1)
    ∧ (ProxiesState.next_proxy^[2]
        ({ proxies := some [⟨some ["y", "x"], "B", none⟩,
                            ⟨some ["m"], "A", none⟩],
           provider := 1, proxy_index := 1, proxies_len := 2,
           providers_len := 2 } : ProxiesState)).proxy_index = 1
    ∧ App.new.page = App.new.page
    ∧ (GeneralState.new.next_mode.next_mode.next_mode).index =
        GeneralState.new.index := by
  refine ⟨?_, ?_, ?_, ?_⟩
  · exact wraparound_periods.1
      { proxies := some [⟨some ["y", "x"], "B", none⟩,
                         ⟨some ["m"], "A", none⟩],
        provider := 1, proxy_index := 0, proxies_len := 2,
        providers_len := 2 } (by decide) (by decide) (by decide)
  · exact wraparound_periods.2.1
      { proxies := some [⟨some ["y", "x"], "B", none⟩,
                         ⟨some ["m"], "A", none⟩],
        provider := 1, proxy_index := 1, proxies_len := 2,
        providers_len := 2 } (by decide) (by decide)
  · exact wraparound_periods.2.2.1 App.new App.new
      (List.replicate 5 (none, none)) (by decide) (by decide) (by decide)
      (by decide)
  · exact wraparound_periods.2.2.2 GeneralState.new (by decide)

/-- C8: for a mode-submodel state whose cursor is in range, `confirm()`
sends exactly `options[index]` (independently of the cached mode), then
resynchronizes: the new `currentMode` is whatever `getMode()` reported
(absent on failure), and neither `confirm()` nor `fetch()` moves the local
cursor. -/
theorem mode_confirm_sends_cursor_option (s : GeneralState)
    (resp : Option Config) (h : s.index < s.modes.length) :
    ∃ t, s.select_mode resp = some (t, s.modes.get ⟨s.index, h⟩)
      ∧ t.config = resp ∧ t.index = s.index ∧ t.modes = s.modes
      ∧ (∀ r : Option Config, (s.fetch_data r).index = s.index) := by
  refine ⟨{ s with config := resp }, ?_, rfl, rfl, rfl, fun _ => rfl⟩
  unfold GeneralState.select_mode
  rw [List.get?_eq_get h]
  rfl

/-- Witness for C8: the fresh mode submodel confirming while the server
reports `"rule"`. -/
theorem mode_confirm_witness :
    ∃ t, GeneralState.new.select_mode (some ⟨"rule"⟩) =
        some (t, GeneralState.new.modes.get ⟨0, by decide⟩)
      ∧ t.config = some ⟨"rule"⟩ ∧ t.index = GeneralState.new.index
      ∧ t.modes = GeneralState.new.modes
      ∧ (∀ r : Option Config,
          (GeneralState.new.fetch_data r).index = GeneralState.new.index) :=
  mode_confirm_sends_cursor_option GeneralState.new (some ⟨"rule"⟩)
    (by decide)

/-- C9: every byte of the group name that lies in the `FRAGMENT` set
(space, double-quote, angle brackets, backtick, C0 controls and DEL) is
percent-escaped as `%XX`, so no such character ever appears raw in the
encoded output; concretely, the group `a b"c` (UTF-8 bytes
`[97, 32, 98, 34, 99]`) yields the PUT path `/proxies/a%20b%22c`. -/
theorem group_name_percent_escaped :
    (∀ (bytes : List Nat) (c : Char), (∀ b ∈ bytes, b < 256) →
        c ∈ utf8PercentEncode bytes → inFragment c.toNat = false)
    ∧ (∀ b : Nat, inFragment b = true →
        percentEncodeByte b = ['%', hexUpper (b / 16), hexUpper (b % 16)])
    ∧ updateProxyPath [97, 32, 98, 34, 99] = "/proxies/a%20b%22c".data := by
  refine ⟨utf8PercentEncode_no_fragment, ?_, by decide⟩
  intro b hb
  simp [percentEncodeByte, hb]

/-- Witness for C9: the `%` introduced for an escaped quote is itself
outside the escape set. -/
theorem group_name_percent_escaped_witness :
    inFragment (Char.toNat '%') = false :=
  group_name_percent_escaped.1 [34] '%' (by decide) (by decide)

/-- C10 (implicit): after the initial state and every completed operation,
the cached `providers_len` equals the number of provider (`isGroup`)
entries of the cached snapshot (0 when absent); consequently the unchecked
indexing inside `nextGroup`/`previousGroup` is in bounds — they return
`some`, never the panic. -/
theorem providers_len_cache_correct :
    LenInv ProxiesState.default
    ∧ (∀ (s : ProxiesState) (r : Option (List Proxy)) (t : ProxiesState),
        s.fetch_data r = some t → LenInv t)
    ∧ (∀ s : ProxiesState, LenInv s → ∃ t, s.next_tab = some t ∧ LenInv t)
    ∧ (∀ s : ProxiesState, LenInv s →
        ∃ t, s.previous_tab = some t ∧ LenInv t)
    ∧ (∀ s : ProxiesState, LenInv s → LenInv s.next_proxy)
    ∧ (∀ s : ProxiesState, LenInv s → LenInv s.previous_proxy)
    ∧ (∀ (s : ProxiesState) (r : Option (List Proxy))
        (out : ProxiesState × Option (String × String)),
        s.select_proxy r = some out → LenInv s → LenInv out.1) := by
  refine ⟨rfl, fetch_data_lenInv, ?_, ?_, ?_, ?_, select_proxy_lenInv⟩
  · intro s hs
    by_cases hz : s.providers_len = 0
    · exact ⟨_, next_tab_of_len_zero s hz, hs⟩
    · exact ⟨_, next_tab_of_len_ne_zero s hs hz, hs⟩
  · intro s hs
    by_cases hz : s.providers_len = 0
    · exact ⟨_, previous_tab_of_len_zero s hz, hs⟩
    · exact ⟨_, previous_tab_of_len_ne_zero s hs hz, hs⟩
  · intro s hs
    by_cases hz : s.proxies_len = 0
    · rw [next_proxy_of_zero s hz]; exact hs
    · rw [next_proxy_of_ne_zero s hz]; exact hs
  · intro s hs
    by_cases hz : s.proxies_len = 0
    · rw [previous_proxy_of_zero s hz]; exact hs
    · rw [previous_proxy_of_ne_zero s hz]; exact hs

/-- Witness for C10: in-bounds `nextGroup` on a concrete two-group state
with a correct cached count. -/
theorem providers_len_cache_correct_witness :
    ∃ t, ({ proxies := some [⟨some ["y", "x"], "B", none⟩,
                             ⟨some ["m"], "A", none⟩],
            provider := 1, proxy_index := 0, proxies_len := 2,
            providers_len := 2 } : ProxiesState).next_tab = some t
      ∧ LenInv t :=
  providers_len_cache_correct.2.2.1 _ (by decide)

/-- C3: confirm snap-back.  From a state selecting `(groupIndex = 1,
memberIndex = 1)` (nonzero cached counts, the sorted lists deep enough),
`confirm()` resolves `(groupName, memberName)` from the pre-call sorted
lists at those indices and issues exactly that pair; after the internal
reset-to-0 `fetch()` (post-mutation snapshot `ps2` with ≥ 2 groups and
≥ 2 members in its first group), the pre-call indices are both below the
post-fetch counts, so they are restored verbatim and the final state is
again `(1, 1)`. -/
theorem confirm_snapback (s : ProxiesState) (g : Proxy) (ms : List String)
    (ps2 : List Proxy) (g2 : Proxy) (ms2 : List String) (m : String)
    (hp : s.provider = 1) (hq : s.proxy_index = 1)
    (h1 : s.providers_len ≠ 0) (h2 : s.proxies_len ≠ 0)
    (hg : s.providers.get? 1 = some g) (hms : g.all = some ms)
    (hm : (sortedMembers ms).get? 1 = some m)
    (hg2 : (sortedProviders ps2)[0]? = some g2)
    (hms2 : g2.all = some ms2) (hlen2 : 2 ≤ ms2.length)
    (hplen2 : 2 ≤ (sortedProviders ps2).length) :
    ∃ t, s.select_proxy (some ps2) = some (t, some (g.name, m))
      ∧ t.provider = 1 ∧ t.proxy_index = 1 := by
  have hguard : ¬(s.providers_len = 0 ∨ s.proxies_len = 0) := by
    intro hc
    rcases hc with hc | hc
    · exact h1 hc
    · exact h2 hc
  unfold ProxiesState.select_proxy
  rw [if_neg hguard]
  dsimp only
  simp only [hp, hq, hg, hms, hm]
  simp only [fetch_data_some_of_ne_zero s ps2 h1 g2 hg2, hms2,
             Option.map_some', Option.getD_some]
  rw [if_neg (by omega :
    ¬((sortedProviders ps2).length = 0 ∨ ms2.length = 0))]
  rw [if_pos (by omega : 1 < (sortedProviders ps2).length)]
  rw [if_pos (by omega : 1 < ms2.length)]
  exact ⟨_, rfl, rfl, rfl⟩

/-- Witness for C3 at the concrete two-group, two-member snapshot
`{"B": {all: ["b2","b1"]}, "A": {all: ["a1","a2"]}}` mutated into an
identically shaped snapshot. -/
theorem confirm_snapback_witness :
    ∃ t, ({ proxies := some [⟨some ["b2", "b1"], "B", none⟩,
                             ⟨some ["a1", "a2"], "A", none⟩],
            provider := 1, proxy_index := 1, proxies_len := 2,
            providers_len := 2 } : ProxiesState).select_proxy
          (some [⟨some ["b2", "b1"], "B", none⟩,
                 ⟨some ["a1", "a2"], "A", none⟩]) =
        some (t, some ("B", "b2"))
      ∧ t.provider = 1 ∧ t.proxy_index = 1 :=
  confirm_snapback
    { proxies := some [⟨some ["b2", "b1"], "B", none⟩,
                       ⟨some ["a1", "a2"], "A", none⟩],
      provider := 1, proxy_index := 1, proxies_len := 2,
      providers_len := 2 }
    ⟨some ["b2", "b1"], "B", none⟩ ["b2", "b1"]
    [⟨some ["b2", "b1"], "B", none⟩, ⟨some ["a1", "a2"], "A", none⟩]
    ⟨some ["a1", "a2"], "A", none⟩ ["a1", "a2"] "b2"
    (by decide) (by decide) (by decide) (by decide) (by decide)
    (by decide) (by decide) (by decide) (by decide) (by decide)
    (by decide)
